import Mathlib

/-!
Shallow embedding of the Smart Recipe Explorer application
(src/app.py and src/genai.py) and proofs about its specified behaviour.

The relational store is modelled as in-memory lists; the AI provider
(an external HTTP chat-completion endpoint) is modelled as an oracle:
each handler invocation receives the ProviderResponse the endpoint would
return for the request the code builds, consisting of the HTTP status
code and the extracted message content
(data.choices[0].message.content in the source).
-/

namespace SmartRecipe

/-- Recipe table row (class Recipe in src/app.py, lines 24-34). -/
structure Recipe where
  id : String
  name : String
  cuisine : String
  isVegetarian : Bool
  prepTimeMinutes : Nat
  ingredients : String
  difficulty : String
  instructions : String
  tags : String
deriving DecidableEq, Repr

/-- AIHistory table row (class AIHistory in src/app.py, lines 36-41).
The id column is an auto-incrementing integer primary key. -/
structure AIHistory where
  id : Nat
  action_type : String
  user_input : String
  ai_output : String
deriving DecidableEq, Repr

/-- Database state: the two tables plus the auto-increment counter the
storage backend keeps for AIHistory.id. -/
structure DB where
  recipes : List Recipe
  history : List AIHistory
  nextHistoryId : Nat
deriving DecidableEq, Repr

/-- What the AI provider returns for one outbound call: HTTP status code
and the extracted message content string. -/
structure ProviderResponse where
  status : Nat
  content : String
deriving DecidableEq, Repr

/-! ### Python string primitives used by the source -/

/-- The set of characters removed by the Python str.strip() default
(ASCII whitespace). -/
def pyWhitespace (c : Char) : Bool :=
  c == ' ' || c == '\t' || c == '\n' || c == '\x0d' || c == '\x0b' || c == '\x0c'

/-- Python str.strip(): drop leading and trailing whitespace characters. -/
def pyStripChars (s : List Char) : List Char :=
  ((s.dropWhile pyWhitespace).reverse.dropWhile pyWhitespace).reverse

/-- Python str.strip() lifted to String. -/
def pyStrip (s : String) : String := ⟨pyStripChars s.data⟩

/-- Whether the character list p occurs at the start of s. -/
def beginsWith : List Char → List Char → Bool
  | [], _ => true
  | _ :: _, [] => false
  | p :: ps, c :: cs => p == c && beginsWith ps cs

/-- Whether p occurs as a contiguous run somewhere in s. -/
def occursAux (p : List Char) : List Char → Bool
  | [] => p.isEmpty
  | c :: rest => beginsWith p (c :: rest) || occursAux p rest

/-- The Python containment test: pat in s. -/
def occursIn (pat s : String) : Bool := occursAux pat.data s.data

/-! ### AI Gateway (src/genai.py) -/

/-- requests.Response.raise_for_status: raises HTTPError exactly when the
status code is in [400, 600); otherwise the call proceeds. -/
def raise_for_status (r : ProviderResponse) : Except String ProviderResponse :=
  if 400 ≤ r.status ∧ r.status < 600 then
    Except.error ("HTTPError " ++ toString r.status)
  else
    Except.ok r

/-- suggest_recipe (src/genai.py lines 39-75): posts the suggestion
prompt, aborts on a non-success status, and returns the message content
stripped of leading/trailing whitespace. The provider answer for the
prompt built from the given ingredients is the oracle argument. -/
def suggest_recipe (_ingredients : String) (resp : ProviderResponse) :
    Except String String :=
  match raise_for_status resp with
  | Except.error e => Except.error e
  | Except.ok r => Except.ok (pyStrip r.content)

/-- simplify_recipe (src/genai.py lines 18-37): posts the simplification
prompt, aborts on a non-success status, and returns the message content
as-is (no strip). -/
def simplify_recipe (_instructions : String) (resp : ProviderResponse) :
    Except String String :=
  match raise_for_status resp with
  | Except.error e => Except.error e
  | Except.ok r => Except.ok r.content

/-! ### Recipe/History store operations (SQLAlchemy calls in src/app.py) -/

/-- Recipe.query.get(recipe_id): primary-key lookup. -/
def getRecipe (db : DB) (rid : String) : Option Recipe :=
  db.recipes.find? (fun r => r.id == rid)

/-- db.session.add(AIHistory(...)); db.session.commit(): insert one
AIHistory row, letting the backend assign the next integer id. -/
def appendHistory (db : DB) (action userInput aiOutput : String) : DB :=
  { db with
    history := db.history ++ [⟨db.nextHistoryId, action, userInput, aiOutput⟩],
    nextHistoryId := db.nextHistoryId + 1 }

/-- HTTP request method. -/
inductive Method
  | GET
  | POST
deriving DecidableEq, Repr

/-- The fixed rejection message the home handler substitutes when the AI
flags the ingredients (src/app.py lines 66-69). -/
def rejectionMessage : String :=
  "❌ I can only suggest recipes using edible ingredients like vegetables, fruits, dairy, or meat."

/-- Outcome of the home route: the database after the request and either
the ai_result value rendered into index.html or a propagated exception
(which Flask turns into the 500 page); gatewayCalls counts outbound AI
calls made while handling the request. -/
structure HomeResult where
  db : DB
  view : Except String (Option String)
  gatewayCalls : Nat
deriving Repr

/-- home (src/app.py lines 48-85). GET renders the recipe list with no
ai_result. POST calls suggest_recipe on the submitted ingredients text;
if the literal marker INVALID_INGREDIENTS occurs in the response the
fixed rejection message is rendered and no history is written, otherwise
one Suggestion row is written and the AI text is rendered. -/
def home (db : DB) (m : Method) (ingredients : String)
    (resp : ProviderResponse) : HomeResult :=
  match m with
  | Method.GET => ⟨db, Except.ok none, 0⟩
  | Method.POST =>
    match suggest_recipe ingredients resp with
    | Except.error e => ⟨db, Except.error e, 1⟩
    | Except.ok ai_response =>
      if occursIn "INVALID_INGREDIENTS" ai_response then
        ⟨db, Except.ok (some rejectionMessage), 1⟩
      else
        ⟨appendHistory db "Suggestion" ingredients ai_response,
         Except.ok (some ai_response), 1⟩

/-- Rendered result of the recipe-detail routes: HTTP status, template
name, and the simplified text passed to the template. -/
structure DetailView where
  status : Nat
  template : String
  simplified : Option String
deriving DecidableEq, Repr

/-- Outcome of a recipe-detail route request. -/
structure DetailResult where
  db : DB
  view : Except String DetailView
  gatewayCalls : Nat
deriving Repr

/-- recipe_detail (src/app.py lines 87-114). Unknown id renders 404.html
with status 404 before anything else happens. GET renders the recipe.
POST calls simplify_recipe on the recipe instructions, always writes one
Simplification row with the recipe name as user_input, and renders the
simplified text. -/
def recipe_detail (db : DB) (m : Method) (rid : String)
    (resp : ProviderResponse) : DetailResult :=
  match getRecipe db rid with
  | none => ⟨db, Except.ok ⟨404, "404.html", none⟩, 0⟩
  | some recipe =>
    match m with
    | Method.GET => ⟨db, Except.ok ⟨200, "recipe_detail.html", none⟩, 0⟩
    | Method.POST =>
      match simplify_recipe recipe.instructions resp with
      | Except.error e => ⟨db, Except.error e, 1⟩
      | Except.ok simplified =>
        ⟨appendHistory db "Simplification" recipe.name simplified,
         Except.ok ⟨200, "recipe_detail.html", some simplified⟩, 1⟩

/-- simplify_recipe_route (src/app.py lines 116-131): POST-only route at
/recipe/<id>/simplify. Unknown id renders 404; otherwise it calls
simplify_recipe and renders the result WITHOUT writing any history. -/
def simplify_recipe_route (db : DB) (rid : String)
    (resp : ProviderResponse) : DetailResult :=
  match getRecipe db rid with
  | none => ⟨db, Except.ok ⟨404, "404.html", none⟩, 0⟩
  | some recipe =>
    match simplify_recipe recipe.instructions resp with
    | Except.error e => ⟨db, Except.error e, 1⟩
    | Except.ok simplified =>
      ⟨db, Except.ok ⟨200, "recipe_detail.html", some simplified⟩, 1⟩

/-- The ORDER BY used by the history route: descending id. -/
def histDesc (a b : AIHistory) : Prop := b.id ≤ a.id

instance : DecidableRel histDesc := fun a b => Nat.decLe b.id a.id

instance : IsTotal AIHistory histDesc := ⟨fun a b => Nat.le_total b.id a.id⟩

instance : IsTrans AIHistory histDesc :=
  ⟨fun _ _ _ hab hbc => Nat.le_trans hbc hab⟩

/-- history (src/app.py lines 133-139): all AIHistory rows ordered by id
descending. -/
def history (db : DB) : List AIHistory :=
  List.insertionSort histDesc db.history

/-- The hard-coded sample recipe (src/app.py lines 147-157). -/
def sampleRecipe : Recipe :=
  ⟨"rec_101", "Paneer Butter Masala", "Indian", true, 40,
   "paneer, tomato, butter, cream", "Medium",
   "Cook tomatoes. Add paneer. Add cream and spices.", "dinner,party"⟩

/-- seed_data (src/app.py lines 141-161): when Recipe.query.count() is
zero, insert the sample recipes list (a single row) and commit;
otherwise do nothing. -/
def seed_data (db : DB) : DB :=
  if db.recipes.length == 0 then
    { db with recipes := db.recipes ++ [sampleRecipe] }
  else
    db

/-! ### Theorems -/

/-- Claim C1: for every ingredient input whose AI response does not
contain the literal substring INVALID_INGREDIENTS, a POST to the home
route creates exactly one AIHistory row with action_type Suggestion,
user_input equal to the raw submitted ingredient text, ai_output equal
to the AI response trimmed of leading/trailing whitespace, and the
rendered page shows that trimmed response. -/
theorem home_post_valid_one_suggestion_row
    (db : DB) (ingredients : String) (resp : ProviderResponse)
    (hs : resp.status < 400)
    (hvalid : occursIn "INVALID_INGREDIENTS" (pyStrip resp.content) = false) :
    (home db Method.POST ingredients resp).db.history =
        db.history ++
          [⟨db.nextHistoryId, "Suggestion", ingredients, pyStrip resp.content⟩]
    ∧ (home db Method.POST ingredients resp).view =
        Except.ok (some (pyStrip resp.content)) := by
  have hne : ¬ (400 ≤ resp.status ∧ resp.status < 600) := by omega
  simp [home, suggest_recipe, raise_for_status, hne, hvalid, appendHistory]

/-- Concrete run of home_post_valid_one_suggestion_row: ingredients
"paneer, tomato", provider content with surrounding whitespace. -/
theorem home_post_valid_one_suggestion_row_witness :
    (home ⟨[], [], 1⟩ Method.POST "paneer, tomato"
        ⟨200, " Use paneer. \n"⟩).db.history =
      [⟨1, "Suggestion", "paneer, tomato", "Use paneer."⟩]
    ∧ (home ⟨[], [], 1⟩ Method.POST "paneer, tomato"
        ⟨200, " Use paneer. \n"⟩).view = Except.ok (some "Use paneer.") :=
  home_post_valid_one_suggestion_row ⟨[], [], 1⟩ "paneer, tomato"
    ⟨200, " Use paneer. \n"⟩ (by decide) (by decide)

/-- Claim C2: for every ingredient input whose AI response contains the
literal substring INVALID_INGREDIENTS anywhere, the home POST handler
creates no AIHistory row and renders the fixed rejection message instead
of the AI text; the history store is unchanged by such a request. -/
theorem home_post_invalid_no_history
    (db : DB) (ingredients : String) (resp : ProviderResponse)
    (hs : resp.status < 400)
    (hinv : occursIn "INVALID_INGREDIENTS" (pyStrip resp.content) = true) :
    (home db Method.POST ingredients resp).db = db
    ∧ (home db Method.POST ingredients resp).view =
        Except.ok (some rejectionMessage) := by
  have hne : ¬ (400 ≤ resp.status ∧ resp.status < 600) := by omega
  simp [home, suggest_recipe, raise_for_status, hne, hinv]

/-- Concrete run of home_post_invalid_no_history: the provider answers
exactly INVALID_INGREDIENTS. -/
theorem home_post_invalid_no_history_witness :
    (home ⟨[], [⟨1, "Suggestion", "a", "b"⟩], 2⟩ Method.POST "phone, chair"
        ⟨200, "INVALID_INGREDIENTS"⟩).db = ⟨[], [⟨1, "Suggestion", "a", "b"⟩], 2⟩
    ∧ (home ⟨[], [⟨1, "Suggestion", "a", "b"⟩], 2⟩ Method.POST "phone, chair"
        ⟨200, "INVALID_INGREDIENTS"⟩).view = Except.ok (some rejectionMessage) :=
  home_post_invalid_no_history ⟨[], [⟨1, "Suggestion", "a", "b"⟩], 2⟩
    "phone, chair" ⟨200, "INVALID_INGREDIENTS"⟩ (by decide) (by decide)

/-- Claim C4: on a successful provider response, suggest_recipe returns
the extracted message content with leading/trailing whitespace stripped,
while simplify_recipe returns the extracted message content unmodified. -/
theorem gateway_trim_asymmetry (x y : String) (resp : ProviderResponse)
    (hs : resp.status < 400) :
    suggest_recipe x resp = Except.ok (pyStrip resp.content)
    ∧ simplify_recipe y resp = Except.ok resp.content := by
  have hne : ¬ (400 ≤ resp.status ∧ resp.status < 600) := by omega
  simp [suggest_recipe, simplify_recipe, raise_for_status, hne]

/-- Concrete run of gateway_trim_asymmetry on content with surrounding
whitespace: suggestion output is stripped, simplification output is not. -/
theorem gateway_trim_asymmetry_witness :
    suggest_recipe "eggs" ⟨200, "  Boil eggs.  "⟩ = Except.ok "Boil eggs."
    ∧ simplify_recipe "Boil." ⟨200, "  Boil eggs.  "⟩ =
        Except.ok "  Boil eggs.  " :=
  gateway_trim_asymmetry "eggs" "Boil." ⟨200, "  Boil eggs.  "⟩ (by decide)

/-- Claim C5: a non-success HTTP status from the completion endpoint
makes both gateway functions abort with a transport error (one call, no
retry), the POST handlers propagate it, and no AIHistory row is written:
the store is unchanged. -/
theorem provider_error_no_history
    (db : DB) (ingredients rid : String) (resp : ProviderResponse)
    (h4 : 400 ≤ resp.status) (h6 : resp.status < 600) :
    suggest_recipe ingredients resp =
        Except.error ("HTTPError " ++ toString resp.status)
    ∧ simplify_recipe ingredients resp =
        Except.error ("HTTPError " ++ toString resp.status)
    ∧ (home db Method.POST ingredients resp).db = db
    ∧ (home db Method.POST ingredients resp).view =
        Except.error ("HTTPError " ++ toString resp.status)
    ∧ (home db Method.POST ingredients resp).gatewayCalls = 1
    ∧ (recipe_detail db Method.POST rid resp).db = db
    ∧ (simplify_recipe_route db rid resp).db = db := by
  have hb : 400 ≤ resp.status ∧ resp.status < 600 := ⟨h4, h6⟩
  refine ⟨?_, ?_, ?_, ?_, ?_, ?_, ?_⟩
  · simp [suggest_recipe, raise_for_status, hb]
  · simp [simplify_recipe, raise_for_status, hb]
  · simp [home, suggest_recipe, raise_for_status, hb]
  · simp [home, suggest_recipe, raise_for_status, hb]
  · simp [home, suggest_recipe, raise_for_status, hb]
  · cases hfind : getRecipe db rid with
    | none => simp [recipe_detail, hfind]
    | some recipe => simp [recipe_detail, hfind, simplify_recipe,
        raise_for_status, hb]
  · cases hfind : getRecipe db rid with
    | none => simp [simplify_recipe_route, hfind]
    | some recipe => simp [simplify_recipe_route, hfind, simplify_recipe,
        raise_for_status, hb]

/-- Concrete run of provider_error_no_history at HTTP status 500. -/
theorem provider_error_no_history_witness :
    suggest_recipe "eggs" ⟨500, "oops"⟩ = Except.error "HTTPError 500"
    ∧ simplify_recipe "eggs" ⟨500, "oops"⟩ = Except.error "HTTPError 500"
    ∧ (home ⟨[sampleRecipe], [], 1⟩ Method.POST "eggs" ⟨500, "oops"⟩).db =
        ⟨[sampleRecipe], [], 1⟩
    ∧ (home ⟨[sampleRecipe], [], 1⟩ Method.POST "eggs" ⟨500, "oops"⟩).view =
        Except.error "HTTPError 500"
    ∧ (home ⟨[sampleRecipe], [], 1⟩ Method.POST "eggs"
        ⟨500, "oops"⟩).gatewayCalls = 1
    ∧ (recipe_detail ⟨[sampleRecipe], [], 1⟩ Method.POST "rec_101"
        ⟨500, "oops"⟩).db = ⟨[sampleRecipe], [], 1⟩
    ∧ (simplify_recipe_route ⟨[sampleRecipe], [], 1⟩ "rec_101"
        ⟨500, "oops"⟩).db = ⟨[sampleRecipe], [], 1⟩ :=
  provider_error_no_history ⟨[sampleRecipe], [], 1⟩ "eggs" "rec_101"
    ⟨500, "oops"⟩ (by decide) (by decide)

/-- Claim C8: for every recipe id not present in the store, both GET and
POST requests to the recipe-detail route return the 404 page, leave the
store unchanged, and make no AI Gateway call. -/
theorem recipe_detail_unknown_id_404
    (db : DB) (m : Method) (rid : String) (resp : ProviderResponse)
    (h : getRecipe db rid = none) :
    recipe_detail db m rid resp =
      ⟨db, Except.ok ⟨404, "404.html", none⟩, 0⟩ := by
  simp [recipe_detail, h]

/-- Concrete run of recipe_detail_unknown_id_404: POST on an id missing
from a seeded store. -/
theorem recipe_detail_unknown_id_404_witness :
    recipe_detail ⟨[sampleRecipe], [], 1⟩ Method.POST "rec_999" ⟨200, "hi"⟩ =
      ⟨⟨[sampleRecipe], [], 1⟩, Except.ok ⟨404, "404.html", none⟩, 0⟩ :=
  recipe_detail_unknown_id_404 ⟨[sampleRecipe], [], 1⟩ Method.POST "rec_999"
    ⟨200, "hi"⟩ (by decide)

/-- Claim C3 counterexample: a simplification POST on an existing recipe
that creates no AIHistory row. The POST to /recipe/rec_101/simplify on a
store holding the sample recipe performs the AI simplification (one
gateway call, the simplified text rendered with status 200) yet leaves
the store, and in particular the AIHistory table, unchanged. -/
theorem simplify_route_writes_no_history :
    simplify_recipe_route ⟨[sampleRecipe], [], 1⟩ "rec_101" ⟨200, "Easy."⟩ =
      ⟨⟨[sampleRecipe], [], 1⟩,
       Except.ok ⟨200, "recipe_detail.html", some "Easy."⟩, 1⟩ := by
  simp [simplify_recipe_route, getRecipe, sampleRecipe, simplify_recipe,
    raise_for_status]

/-- Claim C3 (amended): every POST to the recipe-detail route on an
existing recipe creates exactly one AIHistory row with action_type
Simplification regardless of the AI response content, while the separate
POST route /recipe/<id>/simplify performs the simplification without
writing any history row. -/
theorem recipe_detail_post_one_simplification_row
    (db : DB) (rid : String) (recipe : Recipe) (resp : ProviderResponse)
    (hfound : getRecipe db rid = some recipe)
    (hs : resp.status < 400) :
    (recipe_detail db Method.POST rid resp).db.history =
        db.history ++
          [⟨db.nextHistoryId, "Simplification", recipe.name, resp.content⟩]
    ∧ (simplify_recipe_route db rid resp).db.history = db.history := by
  have hne : ¬ (400 ≤ resp.status ∧ resp.status < 600) := by omega
  constructor
  · simp [recipe_detail, hfound, simplify_recipe, raise_for_status, hne,
      appendHistory]
  · simp [simplify_recipe_route, hfound, simplify_recipe, raise_for_status,
      hne]

/-- Concrete run of recipe_detail_post_one_simplification_row on the
sample recipe: the detail POST appends one Simplification row, the
simplify subroute appends none. -/
theorem recipe_detail_post_one_simplification_row_witness :
    (recipe_detail ⟨[sampleRecipe], [], 1⟩ Method.POST "rec_101"
        ⟨200, "Easy."⟩).db.history =
      [⟨1, "Simplification", "Paneer Butter Masala", "Easy."⟩]
    ∧ (simplify_recipe_route ⟨[sampleRecipe], [], 1⟩ "rec_101"
        ⟨200, "Easy."⟩).db.history = [] :=
  recipe_detail_post_one_simplification_row ⟨[sampleRecipe], [], 1⟩
    "rec_101" sampleRecipe ⟨200, "Easy."⟩ (by decide) (by decide)

/-- Claim C10: every AIHistory row written by the recipe-detail
simplification POST has user_input equal to the recipe name field (not
its instructions) and ai_output equal to the untrimmed string returned
by simplify_recipe on the recipe instructions. -/
theorem simplification_row_fields
    (db : DB) (rid : String) (recipe : Recipe) (resp : ProviderResponse)
    (hfound : getRecipe db rid = some recipe)
    (hs : resp.status < 400) :
    simplify_recipe recipe.instructions resp = Except.ok resp.content
    ∧ (recipe_detail db Method.POST rid resp).db.history =
        db.history ++
          [⟨db.nextHistoryId, "Simplification", recipe.name, resp.content⟩] := by
  have hne : ¬ (400 ≤ resp.status ∧ resp.status < 600) := by omega
  constructor
  · simp [simplify_recipe, raise_for_status, hne]
  · simp [recipe_detail, hfound, simplify_recipe, raise_for_status, hne,
      appendHistory]

/-- Concrete run of simplification_row_fields: the stored row carries the
recipe name and the raw, untrimmed AI output. -/
theorem simplification_row_fields_witness :
    simplify_recipe sampleRecipe.instructions ⟨200, " Two steps. "⟩ =
        Except.ok " Two steps. "
    ∧ (recipe_detail ⟨[sampleRecipe], [], 5⟩ Method.POST "rec_101"
        ⟨200, " Two steps. "⟩).db.history =
      [⟨5, "Simplification", "Paneer Butter Masala", " Two steps. "⟩] :=
  simplification_row_fields ⟨[sampleRecipe], [], 5⟩ "rec_101" sampleRecipe
    ⟨200, " Two steps. "⟩ (by decide) (by decide)

/-- seed_data leaves a store whose recipe table is nonempty unchanged. -/
theorem seed_data_of_ne (db : DB) (h : db.recipes ≠ []) : seed_data db = db := by
  have hl : db.recipes.length ≠ 0 := fun h0 => h (List.length_eq_zero.mp h0)
  simp [seed_data, hl]

/-- Iterating seed_data on a nonempty store changes nothing. -/
theorem seed_data_iterate_of_ne (db : DB) (h : db.recipes ≠ []) (n : Nat) :
    seed_data^[n] db = db := by
  induction n with
  | zero => rfl
  | succ k ih =>
    rw [Function.iterate_succ_apply, seed_data_of_ne db h, ih]

/-- Claim C7: seeding is idempotent. seed_data inserts the single sample
recipe exactly when the Recipe table has zero rows, so any number of
calls starting from an empty table leaves exactly the one sample row,
and a call on a non-empty table changes nothing. -/
theorem seed_data_idempotent (db : DB) (n : Nat) :
    seed_data (seed_data db) = seed_data db
    ∧ (db.recipes = [] → (seed_data^[n + 1] db).recipes = [sampleRecipe])
    ∧ (db.recipes ≠ [] → seed_data db = db) := by
  have hstep : db.recipes = [] →
      seed_data db = { db with recipes := [sampleRecipe] } := by
    intro h; simp [seed_data, h]
  refine ⟨?_, ?_, seed_data_of_ne db⟩
  · by_cases h : db.recipes = []
    · rw [hstep h]
      exact seed_data_of_ne _ (by simp)
    · rw [seed_data_of_ne db h, seed_data_of_ne db h]
  · intro h
    rw [Function.iterate_succ_apply, hstep h,
      seed_data_iterate_of_ne _ (by simp) n]

/-- Concrete run of seed_data_idempotent: three consecutive seed calls on
an empty store leave exactly the sample row, and seeding the resulting
one-row store again changes nothing. -/
theorem seed_data_idempotent_witness :
    (seed_data^[3] ⟨[], [], 1⟩).recipes = [sampleRecipe]
    ∧ seed_data ⟨[sampleRecipe], [], 1⟩ = ⟨[sampleRecipe], [], 1⟩ :=
  ⟨(seed_data_idempotent ⟨[], [], 1⟩ 2).2.1 rfl,
   (seed_data_idempotent ⟨[sampleRecipe], [], 1⟩ 0).2.2 (by simp)⟩

/-- Claim C9: Recipe rows are read-only through the request surface. The
home, recipe-detail and simplify handlers return a store with the Recipe
table unchanged, for every state, method, input and provider response
(the history route reads the store without returning a new one). -/
theorem handlers_preserve_recipes (db : DB) (m : Method)
    (ingredients rid : String) (resp : ProviderResponse) :
    (home db m ingredients resp).db.recipes = db.recipes
    ∧ (recipe_detail db m rid resp).db.recipes = db.recipes
    ∧ (simplify_recipe_route db rid resp).db.recipes = db.recipes := by
  refine ⟨?_, ?_, ?_⟩
  · cases m with
    | GET => rfl
    | POST =>
      cases hg : suggest_recipe ingredients resp with
      | error e => simp [home, hg]
      | ok t => by_cases hx : occursIn "INVALID_INGREDIENTS" t <;>
          simp [home, hg, hx, appendHistory]
  · cases hfind : getRecipe db rid with
    | none => simp [recipe_detail, hfind]
    | some recipe =>
      cases m with
      | GET => simp [recipe_detail, hfind]
      | POST =>
        cases hg : simplify_recipe recipe.instructions resp with
        | error e => simp [recipe_detail, hfind, hg]
        | ok t => simp [recipe_detail, hfind, hg, appendHistory]
  · cases hfind : getRecipe db rid with
    | none => simp [simplify_recipe_route, hfind]
    | some recipe =>
      cases hg : simplify_recipe recipe.instructions resp with
      | error e => simp [simplify_recipe_route, hfind, hg]
      | ok t => simp [simplify_recipe_route, hfind, hg]

/-- Claim C6: the history listing returns all AIHistory rows (a
permutation of the table) in strictly descending id order, for every
store whose rows carry pairwise distinct ids (the primary-key
invariant). -/
theorem history_sorted_desc (db : DB)
    (hnd : (db.history.map AIHistory.id).Nodup) :
    (history db).Perm db.history
    ∧ List.Pairwise (fun a b : AIHistory => b.id < a.id) (history db) := by
  have hperm : (history db).Perm db.history :=
    List.perm_insertionSort histDesc db.history
  refine ⟨hperm, ?_⟩
  have hsorted : List.Pairwise histDesc (history db) :=
    List.sorted_insertionSort histDesc db.history
  have hnd2 : ((history db).map AIHistory.id).Nodup :=
    ((hperm.map AIHistory.id).nodup_iff).mpr hnd
  have hne : List.Pairwise (fun a b : AIHistory => a.id ≠ b.id) (history db) :=
    List.pairwise_map.mp hnd2
  exact (hsorted.and hne).imp
    (fun h => Nat.lt_of_le_of_ne h.1 (fun he => h.2 he.symm))

/-- Concrete run of history_sorted_desc on a two-row store inserted in
ascending id order: the listing comes back newest first. -/
theorem history_sorted_desc_witness :
    (history ⟨[], [⟨1, "Suggestion", "a", "b"⟩,
        ⟨2, "Simplification", "c", "d"⟩], 3⟩).Perm
      [⟨1, "Suggestion", "a", "b"⟩, ⟨2, "Simplification", "c", "d"⟩]
    ∧ List.Pairwise (fun a b : AIHistory => b.id < a.id)
        (history ⟨[], [⟨1, "Suggestion", "a", "b"⟩,
          ⟨2, "Simplification", "c", "d"⟩], 3⟩) :=
  history_sorted_desc ⟨[], [⟨1, "Suggestion", "a", "b"⟩,
    ⟨2, "Simplification", "c", "d"⟩], 3⟩ (by decide)

end SmartRecipe
